import Mathlib

/-!
Verification development for the airport check-in automation program
(`main.py`): data model, config parser, session client, orchestrator and
result formatter, embedded shallowly in Lean 4.

Modeling conventions:
* HTTP is modeled as a trace `t : Nat → HttpExchange` of server behaviors,
  consumed in request order via an explicit counter; each `Session.post`
  consumes one exchange.
* The `requests.Session` cookie jar is modeled as an association list
  threaded explicitly through every call (`Session` below); `__init__`
  creates one jar shared by all accounts, so the batch functions thread a
  single jar.
* Python exceptions inside `checkin`'s `try` block are modeled with
  `Except String`: `checkinBody` is the protected region (main.py lines
  64-97) and `checkin` is the `try/except` wrapper around it.
* The wall clock read by `format_results` is nondeterministic, so the
  rendered timestamp is passed as an explicit argument.
-/

namespace Jichang

/-- `Account` dataclass (main.py lines 10-14): email + password. -/
structure Account where
  email : String
  password : String
deriving DecidableEq, Repr

/-- `CheckinResult` dataclass (main.py lines 17-23). -/
structure CheckinResult where
  account : String
  success : Bool
  message : String
  error : Option String := none
deriving DecidableEq, Repr

/-- Cookie jar of a `requests.Session`, as an association list. -/
abbrev Session := List (String × String)

/-- Outcome of one HTTP response body: either an exception while reading it
(`raise_for_status` on non-2xx, or `.json()` parse failure), or a parsed
JSON body restricted to the two fields the program reads (`ret`, `msg`);
an absent or non-matching field is `none`. -/
inductive BodyOutcome where
  | exc (msg : String)
  | body (ret : Option Int) (msg : Option String)
deriving DecidableEq, Repr

/-- One server behavior for one HTTP post: either the connection itself
raises (no response, no cookies), or a response arrives carrying
`Set-Cookie` pairs (merged into the jar by `requests`) and a body outcome. -/
inductive HttpExchange where
  | connErr (msg : String)
  | resp (setCookies : List (String × String)) (out : BodyOutcome)
deriving DecidableEq, Repr, Inhabited

/-- Merge one cookie into the jar, overwriting an existing name. -/
def setCookie (jar : Session) (c : String × String) : Session :=
  if jar.any (fun p => p.1 == c.1) then
    jar.map (fun p => if p.1 == c.1 then c else p)
  else jar ++ [c]

/-- Merge all `Set-Cookie` pairs of a response into the jar. -/
def updateSession (jar : Session) (cs : List (String × String)) : Session :=
  cs.foldl setCookie jar

/-- One `self.session.post(...)` followed by `raise_for_status()` and
`.json()`: returns the updated cookie jar and either the parsed body or the
raised exception. Cookies are merged as soon as a response arrives, before
`raise_for_status`/`.json()` can raise. -/
def postRaw (ex : HttpExchange) (jar : Session) :
    Session × Except String (Option Int × Option String) :=
  match ex with
  | .connErr m => (jar, .error m)
  | .resp cs out =>
    match out with
    | .exc m => (updateSession jar cs, .error m)
    | .body ret msg => (updateSession jar cs, .ok (ret, msg))

/-- `AirportCheckin.login` (main.py lines 40-58): posts the credentials,
treats `ret == 1` as success, and catches every exception as `False`.
The account's credentials are what the post carries; the server's reaction
is the supplied exchange. -/
def login (_account : Account) (ex : HttpExchange) (jar : Session) :
    Bool × Session :=
  match postRaw ex jar with
  | (jar1, .error _) => (false, jar1)
  | (jar1, .ok (ret, _)) => (ret == some 1, jar1)

/-- Python `needle in hay` substring test, on character lists. -/
def subList (needle : List Char) : List Char → Bool
  | [] => needle.isEmpty
  | c :: rest => needle.isPrefixOf (c :: rest) || subList needle rest

/-- Python `needle in hay` on strings. -/
def containsSub (hay needle : String) : Bool :=
  subList needle.data hay.data

/-- Protected region of `AirportCheckin.checkin` (main.py lines 64-97: the
body of the `try`). Consumes the login exchange at index `k`; when login
succeeds it consumes the check-in exchange at `k+1`. An uncaught exception
of the region is `.error`. Returns (result-or-exception, jar, next index). -/
def checkinBody (account : Account) (jar : Session) (t : Nat → HttpExchange)
    (k : Nat) : Except String CheckinResult × Session × Nat :=
  match login account (t k) jar with
  | (false, jar1) =>
    (.ok ⟨account.email, false, "登录失败", some "Authentication failed"⟩,
      jar1, k + 1)
  | (true, jar1) =>
    match postRaw (t (k + 1)) jar1 with
    | (jar2, .error e) => (.error e, jar2, k + 2)
    | (jar2, .ok (ret, msg)) =>
      let message := msg.getD "签到完成"
      let success := ret == some 1
      let success :=
        if !success && message != "" && containsSub message "已经签到" then
          true
        else success
      (.ok ⟨account.email, success, message, none⟩, jar2, k + 2)

/-- `AirportCheckin.checkin` (main.py lines 60-109): runs the protected
region and converts any exception into a `CheckinResult` with
`success = false` (the `except` clause, lines 99-107). Always returns a
plain `CheckinResult`, never an exception. -/
def checkin (account : Account) (jar : Session) (t : Nat → HttpExchange)
    (k : Nat) : CheckinResult × Session × Nat :=
  match checkinBody account jar t k with
  | (.ok r, jar1, k1) => (r, jar1, k1)
  | (.error e, jar1, k1) =>
    (⟨account.email, false, "签到失败", some ("签到异常: " ++ e)⟩, jar1, k1)

/-- `AirportCheckin.batch_checkin` (main.py lines 111-119): processes the
accounts in order, appending one result each, threading the single shared
session jar created in `__init__`. -/
def batch_checkin (accounts : List Account) (jar : Session)
    (t : Nat → HttpExchange) (k : Nat) :
    List CheckinResult × Session × Nat :=
  match accounts with
  | [] => ([], jar, k)
  | a :: rest =>
    let (r, jar1, k1) := checkin a jar t k
    let (rs, jar2, k2) := batch_checkin rest jar1 t k1
    (r :: rs, jar2, k2)

/-- Leading-whitespace predicate of Python `str.strip()` (ASCII part). -/
def isPySpace (c : Char) : Bool :=
  c == ' ' || c == '\t' || c == '\n' || c == '\r' || c == '\x0b' || c == '\x0c'

/-- Python `str.strip()` on a character list. -/
def stripChars (l : List Char) : List Char :=
  ((l.dropWhile isPySpace).reverse.dropWhile isPySpace).reverse

/-- Python `str.strip()`. -/
def pythonStrip (s : String) : String :=
  ⟨stripChars s.data⟩

/-- Split on a newline character, keeping empty pieces. -/
def splitNl : List Char → List Char → List (List Char)
  | [], acc => [acc.reverse]
  | '\n' :: rest, acc => acc.reverse :: splitNl rest []
  | c :: rest, acc => splitNl rest (acc ++ [c])

/-- Python `str.splitlines()` restricted to `'\n'` separators; faithful on
every string with no trailing newline (in `parse_config` it is only applied
to stripped strings, which cannot end in `'\n'`). `""` gives `[]`. -/
def splitlines (s : String) : List String :=
  if s.data = [] then [] else (splitNl s.data []).map fun cs => ⟨cs⟩

/-- The pairing loop of `parse_config` (main.py lines 132-136): every two
consecutive lines become one `Account`, each field stripped. -/
def chunkAccounts : List String → List Account
  | a :: b :: rest =>
    Account.mk (pythonStrip a) (pythonStrip b) :: chunkAccounts rest
  | _ => []

/-- `parse_config` (main.py lines 122-138). Empty string: empty list.
Otherwise strip, split into lines; odd or zero line count raises
`ValueError` (modeled as `.error`); else pair lines into accounts. -/
def parse_config (config_str : String) : Except String (List Account) :=
  if config_str = "" then .ok []
  else
    let configs := splitlines (pythonStrip config_str)
    if configs.length % 2 ≠ 0 ∨ configs.length = 0 then
      .error "配置文件格式错误：账号和密码必须成对出现"
    else .ok (chunkAccounts configs)

/-- `mask_email` (main.py lines 141-153): constant full redaction. -/
def mask_email (_email : String) : String :=
  "*****"

/-- Python `"\n".join(lines)`. -/
def joinLines : List String → String
  | [] => ""
  | [x] => x
  | x :: y :: rest => x ++ "\n" ++ joinLines (y :: rest)

/-- The numbered per-result blocks of `format_results` (main.py lines
171-181), numbering from `i`. -/
def resultLines (i : Nat) : List CheckinResult → List String
  | [] => []
  | r :: rest =>
    let status := if r.success then "✅ 成功" else "❌ 失败"
    let errLines :=
      match r.error with
      | some e => ["   错误: " ++ e]
      | none => []
    ([toString i ++ ". " ++ mask_email r.account,
      "   状态: " ++ status,
      "   消息: " ++ r.message] ++ errLines ++ [""]) ++ resultLines (i + 1) rest

/-- The aggregate-count line of `format_results` (main.py line 169). -/
def countsLine (total succeeded : Nat) : String :=
  "总计: " ++ toString total ++ " 个账号，成功: " ++ toString succeeded ++ " 个"

/-- `format_results` (main.py lines 156-183). The Beijing-time timestamp
rendered on the first line comes from the wall clock, so it is passed in as
`timestamp`. -/
def format_results (timestamp : String) (results : List CheckinResult) :
    String :=
  if results = [] then "没有签到结果"
  else
    let success_count := results.countP fun r => r.success
    let total_count := results.length
    joinLines (("机场签到结果 - " ++ timestamp)
      :: countsLine total_count success_count
      :: resultLines 1 results)

/-! ### Helper lemmas -/

/-- Every branch of `checkin` records the processed account's email. -/
theorem checkin_account_eq (a : Account) (jar : Session)
    (t : Nat → HttpExchange) (k : Nat) :
    ((checkin a jar t k).1).account = a.email := by
  rcases hl : login a (t k) jar with ⟨b, jar1⟩
  cases b with
  | false => simp [checkin, checkinBody, hl]
  | true =>
    rcases hp : postRaw (t (k + 1)) jar1 with ⟨jar2, res⟩
    cases res with
    | error e => simp [checkin, checkinBody, hl, hp]
    | ok pair => rcases pair with ⟨ret, msg⟩; simp [checkin, checkinBody, hl, hp]

/-- Unfolding of `batch_checkin` on a non-empty account list: the head is
processed first and the tail is processed with the session jar and request
counter the head left behind. -/
theorem batch_checkin_cons (a : Account) (rest : List Account) (jar : Session)
    (t : Nat → HttpExchange) (k : Nat) :
    batch_checkin (a :: rest) jar t k =
      ((checkin a jar t k).1
          :: (batch_checkin rest (checkin a jar t k).2.1 t
              (checkin a jar t k).2.2).1,
        (batch_checkin rest (checkin a jar t k).2.1 t
            (checkin a jar t k).2.2).2) := by
  rcases h : checkin a jar t k with ⟨r, jar1, k1⟩
  simp [batch_checkin, h]

/-! ### Shared concrete inputs for witnesses and counterexamples -/

def accA : Account := ⟨"a@example.com", "pa"⟩

def accB : Account := ⟨"b@example.com", "pb"⟩

/-- Server that refuses every connection. -/
def failTrace : Nat → HttpExchange :=
  fun _ => .connErr "conn refused"

/-- Server that accepts the first login and then times out. -/
def errTrace : Nat → HttpExchange
  | 0 => .resp [] (.body (some 1) none)
  | _ => .connErr "timeout"

/-! ### C1: per-account processing never lets an exception escape -/

/-- C1: `AirportCheckin.checkin` converts every failure mode into a
returned `CheckinResult` with `success = false`, never raising.
Authentication failure (login returns `False`) yields the login-failure
result; any exception of the protected region (check-in transport error or
response parse anomaly, `checkinBody` returning `.error`) is caught by the
`except` clause and yields the check-in-failure result carrying the
exception detail. `checkin` is total by construction, so no exception
reaches the caller. (The spec's "login failed"/"authentication failed" are
its English glosses of the code's literals "登录失败"/"Authentication
failed".) -/
theorem checkin_contains_all_failures (a : Account) (jar : Session)
    (t : Nat → HttpExchange) (k : Nat) :
    ((login a (t k) jar).1 = false →
      (checkin a jar t k).1
        = ⟨a.email, false, "登录失败", some "Authentication failed"⟩)
    ∧ ∀ e, (checkinBody a jar t k).1 = .error e →
      (checkin a jar t k).1
        = ⟨a.email, false, "签到失败", some ("签到异常: " ++ e)⟩ := by
  constructor
  · intro h
    rcases hl : login a (t k) jar with ⟨b, jar1⟩
    rw [hl] at h
    simp only at h
    subst h
    simp [checkin, checkinBody, hl]
  · intro e he
    rcases hb : checkinBody a jar t k with ⟨res, jar1, k1⟩
    rw [hb] at he
    simp only at he
    subst he
    simp [checkin, hb]

/-- C1 witness: a connection-refusing server produces the login-failure
result, and a server that times out after a successful login produces the
check-in-failure result — both returned values, never exceptions. -/
theorem checkin_contains_all_failures_witness :
    (checkin accA [] failTrace 0).1
      = ⟨"a@example.com", false, "登录失败", some "Authentication failed"⟩
    ∧ (checkin accA [] errTrace 0).1
      = ⟨"a@example.com", false, "签到失败", some ("签到异常: " ++ "timeout")⟩ :=
  ⟨(checkin_contains_all_failures accA [] failTrace 0).1 (by rfl),
    (checkin_contains_all_failures accA [] errTrace 0).2 "timeout" (by rfl)⟩

/-! ### C2: one Outcome per Credential, in order, no early termination -/

/-- C2: for every account list, session jar, server behavior and request
counter, `batch_checkin` returns exactly one result per account, and the
results carry the accounts' emails in input order. This holds for every
server behavior — including ones that fail arbitrary accounts — so a
failure on one credential never prevents or reorders the processing of
subsequent credentials. -/
theorem batch_one_outcome_per_credential (accounts : List Account)
    (jar : Session) (t : Nat → HttpExchange) (k : Nat) :
    (batch_checkin accounts jar t k).1.length = accounts.length
    ∧ (batch_checkin accounts jar t k).1.map CheckinResult.account
      = accounts.map Account.email := by
  induction accounts generalizing jar k with
  | nil => exact ⟨rfl, rfl⟩
  | cons a rest ih =>
    rw [batch_checkin_cons]
    rcases ih (checkin a jar t k).2.1 (checkin a jar t k).2.2 with ⟨ihlen, ihmap⟩
    constructor
    · simpa using ihlen
    · simp [checkin_account_eq, ihmap]

/-! ### C3: authentication failure records a fixed Outcome, skips check-in -/

/-- C3: when `login` returns `False` for an account, `checkin` records
exactly the result `{success := false, message := "登录失败" (spec gloss:
"login failed"), error := "Authentication failed" (spec gloss:
"authentication failed")}`; the request counter advances only past the login
exchange (`k + 1`), i.e. no check-in request is issued; and in a batch the
remaining accounts are processed normally afterwards. -/
theorem login_failure_skips_checkin (a : Account) (rest : List Account)
    (jar : Session) (t : Nat → HttpExchange) (k : Nat)
    (h : (login a (t k) jar).1 = false) :
    checkin a jar t k
      = (⟨a.email, false, "登录失败", some "Authentication failed"⟩,
          (login a (t k) jar).2, k + 1)
    ∧ (batch_checkin (a :: rest) jar t k).1
      = ⟨a.email, false, "登录失败", some "Authentication failed"⟩
        :: (batch_checkin rest (login a (t k) jar).2 t (k + 1)).1 := by
  rcases hl : login a (t k) jar with ⟨b, jar1⟩
  rw [hl] at h
  simp only at h
  subst h
  have hc : checkin a jar t k
      = (⟨a.email, false, "登录失败", some "Authentication failed"⟩, jar1, k + 1) := by
    simp [checkin, checkinBody, hl]
  refine ⟨hc, ?_⟩
  rw [batch_checkin_cons, hc]

/-- C3 witness: against a connection-refusing server, account A yields the
fixed login-failure outcome without a check-in request, and account B is
still processed (one further outcome). -/
theorem login_failure_skips_checkin_witness :
    checkin accA [] failTrace 0
      = (⟨"a@example.com", false, "登录失败", some "Authentication failed"⟩,
          (login accA (failTrace 0) []).2, 0 + 1)
    ∧ (batch_checkin [accA, accB] [] failTrace 0).1
      = ⟨"a@example.com", false, "登录失败", some "Authentication failed"⟩
        :: (batch_checkin [accB] (login accA (failTrace 0) []).2 failTrace (0 + 1)).1 :=
  login_failure_skips_checkin accA [accB] [] failTrace 0 (by rfl)

/-! ### C4: "already checked in" responses are reclassified as success -/

/-- C4: when login succeeds and the check-in response parses to a body whose
`ret` flag is not `1` but whose `msg` string contains the phrase
"已经签到" (spec gloss: "already checked in"), the recorded result has
`success = true` and carries the upstream message verbatim. -/
theorem already_checked_in_reclassified (a : Account) (jar : Session)
    (t : Nat → HttpExchange) (k : Nat) (cs : List (String × String))
    (ret : Option Int) (msg : String)
    (hlogin : (login a (t k) jar).1 = true)
    (hresp : t (k + 1) = .resp cs (.body ret (some msg)))
    (hret : ret ≠ some 1)
    (hmsg : containsSub msg "已经签到" = true) :
    (checkin a jar t k).1 = ⟨a.email, true, msg, none⟩ := by
  rcases hl : login a (t k) jar with ⟨b, jar1⟩
  rw [hl] at hlogin
  simp only at hlogin
  subst hlogin
  have hbeq : (ret == some 1) = false := by
    simpa using hret
  have hne : (msg == "") = false := by
    rcases hmm : msg == "" with _ | _
    · rfl
    · exfalso
      have : msg = "" := by simpa using hmm
      rw [this] at hmsg
      exact absurd hmsg (by decide)
  have hnep : msg ≠ "" := by simpa using hne
  simp [checkin, checkinBody, hl, hresp, postRaw, hbeq, hne, hnep, hmsg]

/-- Server for the C4 witness: login succeeds, then check-in answers with a
failure flag but an "already checked in" message. -/
def alreadyTrace : Nat → HttpExchange
  | 0 => .resp [] (.body (some 1) none)
  | _ => .resp [] (.body (some 0) (some "您似乎已经签到过了"))

/-- C4 witness: the failure-flagged "already checked in" response yields a
successful outcome carrying the upstream message verbatim. -/
theorem already_checked_in_reclassified_witness :
    (checkin accA [] alreadyTrace 0).1
      = ⟨"a@example.com", true, "您似乎已经签到过了", none⟩ :=
  already_checked_in_reclassified accA [] alreadyTrace 0 [] (some 0)
    "您似乎已经签到过了" (by rfl) (by rfl) (by decide) (by rfl)

/-! ### C5: session state is shared across accounts (code bug) -/

/-- Server whose login response for the first account sets a cookie. -/
def traceShared : Nat → HttpExchange
  | 0 => .resp [("uid", "1")] (.body (some 1) none)
  | _ => .resp [] (.body (some 1) (some "签到成功"))

/-- C5 evaluation at the failing input: `__init__` constructs a single
`requests.Session` reused by `batch_checkin` for every account, so after
account A's login sets the cookie `uid=1`, account B's whole login+checkin
cycle is driven with that non-fresh cookie jar — contradicting the claimed
fresh-session-per-credential invariant. The second conjunct shows B's
recorded outcome in the batch is exactly the one computed from the jar
inherited from A. -/
theorem session_shared_across_accounts :
    (checkin accA [] traceShared 0).2.1 = [("uid", "1")]
    ∧ (batch_checkin [accA, accB] [] traceShared 0).1
      = [(checkin accA [] traceShared 0).1,
          (checkin accB [("uid", "1")] traceShared 2).1]
    ∧ ([("uid", "1")] : Session) ≠ [] :=
  ⟨rfl, rfl, by decide⟩

/-! ### C6: parse_config behavior -/

/-- Pairing of already-trimmed lines, per the spec's words. -/
def pairLines : List String → List Account
  | a :: b :: rest => Account.mk a b :: pairLines rest
  | _ => []

/-- Follows the spec's words (section 4.1 / C6), for comparison with
`parse_config`: empty string yields an empty sequence; otherwise split the
trimmed input on line breaks, trim each line, fail with `MalformedConfig`
when the line count is zero or odd, else pair each identifier line with the
immediately following secret line, in input order. -/
def parseConfig_spec (s : String) : Except String (List Account) :=
  if s = "" then .ok []
  else
    let lines := (splitlines (pythonStrip s)).map pythonStrip
    if lines.length = 0 ∨ lines.length % 2 = 1 then .error "MalformedConfig"
    else .ok (pairLines lines)

/-- The source's pairing loop equals the spec-side pairing of pre-trimmed
lines. -/
theorem chunkAccounts_eq_pairLines :
    ∀ l : List String, chunkAccounts l = pairLines (l.map pythonStrip)
  | [] => rfl
  | [_] => rfl
  | a :: b :: rest => by
    simp [chunkAccounts, pairLines, chunkAccounts_eq_pairLines rest]

/-- C6: `parse_config` agrees with the spec's description on every input
string: same domain of success (empty string succeeds with `[]`; zero or
odd trimmed line count fails with the `ValueError`, the code's
`MalformedConfig` condition) and same parsed credentials (lines paired in
order, whitespace-trimmed). The conjuncts instantiate the spec's examples:
`""` yields `[]`, `"a"` fails, and `"a\nb\nc\nd"` yields exactly
`[{a,b},{c,d}]`. -/
theorem parse_config_matches_spec :
    (∀ s : String,
      (parse_config s).toOption = (parseConfig_spec s).toOption)
    ∧ parse_config "" = .ok []
    ∧ (parse_config "a").toOption = none
    ∧ parse_config "a\nb\nc\nd" = .ok [⟨"a", "b"⟩, ⟨"c", "d"⟩] := by
  refine ⟨?_, rfl, rfl, rfl⟩
  intro s
  by_cases hs : s = ""
  · subst hs; rfl
  · rw [parse_config, parseConfig_spec, if_neg hs, if_neg hs]
    simp only [List.length_map]
    rcases Nat.even_or_odd (splitlines (pythonStrip s)).length with he | ho
    · have h2 : (splitlines (pythonStrip s)).length % 2 = 0 :=
        Nat.even_iff.mp he
      by_cases h0 : (splitlines (pythonStrip s)).length = 0
      · simp [h2, h0, Except.toOption]
      · simp [h2, h0, chunkAccounts_eq_pairLines]
    · have h2 : (splitlines (pythonStrip s)).length % 2 = 1 :=
        Nat.odd_iff.mp ho
      simp [h2, Except.toOption]

/-! ### C7: parity invariant of parse_config -/

/-- C7 counterexample: `"a\nb"` is a valid input (the parse succeeds), yet
the returned credential sequence has length 1, so
`len(parseConfig(s)) % 2 == 0` fails: the even quantity is the line count,
not the credential count. -/
theorem parse_config_result_parity_cex :
    parse_config "a\nb" = .ok [⟨"a", "b"⟩]
    ∧ ([Account.mk "a" "b"] : List Account).length % 2 = 1 :=
  ⟨rfl, rfl⟩

/-- On an even-length line list the pairing loop yields exactly half as
many accounts. -/
theorem chunkAccounts_length :
    ∀ l : List String, l.length % 2 = 0 →
      2 * (chunkAccounts l).length = l.length
  | [], _ => rfl
  | [_], h => by simp at h
  | a :: b :: rest, h => by
    have hr : rest.length % 2 = 0 := by
      simp [List.length_cons] at h
      omega
    have ih := chunkAccounts_length rest hr
    simp [chunkAccounts, List.length_cons]
    omega

/-- C7 amended: for every input on which `parse_config` succeeds, the
parity invariant the parser enforces is on the line count of the trimmed
input — it is even (and twice the number of returned credentials); the
returned credential count itself need not be even. -/
theorem parse_config_line_parity (s : String) (l : List Account)
    (h : parse_config s = .ok l) :
    2 * l.length = (splitlines (pythonStrip s)).length
    ∧ (splitlines (pythonStrip s)).length % 2 = 0 := by
  by_cases hs : s = ""
  · subst hs
    rw [parse_config] at h
    simp at h
    subst h
    exact ⟨rfl, rfl⟩
  · rw [parse_config, if_neg hs] at h
    by_cases hg : (splitlines (pythonStrip s)).length % 2 ≠ 0
        ∨ (splitlines (pythonStrip s)).length = 0
    · rw [if_pos hg] at h
      exact absurd h (by simp)
    · rw [if_neg hg] at h
      have h2 : (splitlines (pythonStrip s)).length % 2 = 0 := by
        rcases not_or.mp hg with ⟨h2, _⟩
        exact not_not.mp h2
      have hl : l = chunkAccounts (splitlines (pythonStrip s)) := by
        simpa using h.symm
      subst hl
      exact ⟨chunkAccounts_length _ h2, h2⟩

/-- C7 amended witness: on `"a\nb\nc\nd"` the parse succeeds with 2
credentials and the trimmed input has 4 = 2·2 lines, an even count. -/
theorem parse_config_line_parity_witness :
    2 * ([⟨"a", "b"⟩, ⟨"c", "d"⟩] : List Account).length
      = (splitlines (pythonStrip "a\nb\nc\nd")).length
    ∧ (splitlines (pythonStrip "a\nb\nc\nd")).length % 2 = 0 :=
  parse_config_line_parity "a\nb\nc\nd" [⟨"a", "b"⟩, ⟨"c", "d"⟩] rfl

/-! ### C8: field validation of parse_config -/

/-- C8 counterexample: the input `"a\nb\n\nc"` has four lines (the third
blank), parses successfully, and its second credential has an empty
identifier after trimming — non-emptiness is not validated. -/
theorem parse_config_empty_identifier_cex :
    parse_config "a\nb\n\nc" = .ok [⟨"a", "b"⟩, ⟨"", "c"⟩]
    ∧ (Account.mk "" "c").email = "" :=
  ⟨rfl, rfl⟩

/-- C8 amended: `parse_config` performs no field-level validation at all —
for every non-empty input string, success depends only on the trimmed
input's line count being even and non-zero, never on the content of any
line; identifiers and secrets may be empty after trimming. -/
theorem parse_config_no_field_validation (s : String) (h : s ≠ "") :
    (parse_config s).toOption.isSome = true ↔
      ((splitlines (pythonStrip s)).length % 2 = 0
        ∧ (splitlines (pythonStrip s)).length ≠ 0) := by
  rw [parse_config, if_neg h]
  by_cases hg : (splitlines (pythonStrip s)).length % 2 ≠ 0
      ∨ (splitlines (pythonStrip s)).length = 0
  · rw [if_pos hg]
    simp [Except.toOption, ← List.length_eq_zero]
    tauto
  · rw [if_neg hg]
    simp [Except.toOption, ← List.length_eq_zero]
    tauto

/-- C8 amended witness: `"a\nb"` is non-empty, its trimmed line count is 2
(even, non-zero), and the parse indeed succeeds. -/
theorem parse_config_no_field_validation_witness :
    (parse_config "a\nb").toOption.isSome = true ↔
      ((splitlines (pythonStrip "a\nb")).length % 2 = 0
        ∧ (splitlines (pythonStrip "a\nb")).length ≠ 0) :=
  parse_config_no_field_validation "a\nb" (by decide)

/-! ### C9: the report carries the aggregate counts -/

/-- `joinLines (x :: xs)` starts with `x`. -/
theorem joinLines_cons_data (x : String) (xs : List String) :
    ∃ tail, (joinLines (x :: xs)).data = x.data ++ tail := by
  cases xs with
  | nil => exact ⟨[], by simp [joinLines]⟩
  | cons y rest =>
    exact ⟨'\n' :: (joinLines (y :: rest)).data, by simp [joinLines]⟩

/-- C9 counterexample: on the empty Outcome sequence the report is the
fixed sentinel `"没有签到结果"`, which does not contain the aggregate-count
line for total 0, so the claim fails for the empty sequence. -/
theorem report_empty_no_counts_cex :
    format_results "2024-01-01 12:00:00" [] = "没有签到结果"
    ∧ ¬ ("总计: 0" : String).data <:+: ("没有签到结果" : String).data := by
  exact ⟨rfl, by decide⟩

/-- C9 amended: for every non-empty Outcome sequence, the report contains
the aggregate-count line `"总计: N 个账号，成功: K 个"` (the code's
rendering of the spec's "total: N" with success count K) where `N` is the
sequence length and `K` the number of entries with `success = true`. -/
theorem report_contains_counts (ts : String) (rs : List CheckinResult)
    (h : rs ≠ []) :
    (countsLine rs.length (rs.countP fun r => r.success)).data
      <:+: (format_results ts rs).data := by
  rw [format_results, if_neg h]
  rcases rs with _ | ⟨r, rest⟩
  · exact absurd rfl h
  · rw [joinLines]
    rcases joinLines_cons_data
        (countsLine (r :: rest).length ((r :: rest).countP fun x => x.success))
        (resultLines 1 (r :: rest)) with ⟨tail, htail⟩
    refine ⟨("机场签到结果 - " ++ ts).data ++ ['\n'], tail, ?_⟩
    simp only [List.length_cons] at htail
    simp [htail]

/-- C9 amended witness: a one-element sequence with a successful outcome
yields a report containing the counts line for total 1, succeeded 1. -/
theorem report_contains_counts_witness :
    (countsLine ([⟨"a@example.com", true, "ok", none⟩] : List CheckinResult).length
        (([⟨"a@example.com", true, "ok", none⟩] : List CheckinResult).countP
          fun r => r.success)).data
      <:+: (format_results "2024-01-01 12:00:00"
          [⟨"a@example.com", true, "ok", none⟩]).data :=
  report_contains_counts "2024-01-01 12:00:00"
    [⟨"a@example.com", true, "ok", none⟩] (by decide)

/-! ### C10: identifier redaction in the report -/

/-- C10 counterexample: an Outcome whose identifier is the string `"成功"`
defeats literal non-containment — the report always renders that string in
its status/count text, so the identifier occurs in the report as a
substring even though it was fully redacted by `mask_email`. -/
theorem report_contains_identifier_cex :
    ("成功" : String).data
      <:+: (format_results "T" [⟨"成功", true, "ok", none⟩]).data := by
  decide

/-- The numbered blocks never depend on the `account` field: `mask_email`
is constant. -/
theorem resultLines_account_irrelevant (g : CheckinResult → String) :
    ∀ (rs : List CheckinResult) (i : Nat),
      resultLines i (rs.map fun r => ⟨g r, r.success, r.message, r.error⟩)
        = resultLines i rs
  | [], _ => rfl
  | r :: rest, i => by
    simp [resultLines, mask_email,
      resultLines_account_irrelevant g rest (i + 1)]

/-- C10 amended: the report is fully independent of the Outcomes'
identifiers — rewriting every identifier arbitrarily leaves the report
unchanged (full redaction: the identifier never flows into the report).
Literal substring non-containment, as the claim states it, fails only when
the identifier happens to coincide with other report text (status glyphs,
counts, messages, the timestamp, or the empty string). -/
theorem report_independent_of_identifiers (ts : String)
    (rs : List CheckinResult) (g : CheckinResult → String) :
    format_results ts (rs.map fun r => ⟨g r, r.success, r.message, r.error⟩)
      = format_results ts rs := by
  by_cases h : rs = []
  · subst h; rfl
  · have hm : rs.map (fun r => (⟨g r, r.success, r.message, r.error⟩ : CheckinResult)) ≠ [] := by
      simpa using h
    rw [format_results, format_results, if_neg h, if_neg hm]
    rw [List.length_map, List.countP_map,
      resultLines_account_irrelevant g rs 1]
    rfl

end Jichang
